import Mathlib

/-!
Shallow embedding of the QSAN Cinder driver
(`cinder/volume/drivers/qsan/common.py` and
`cinder/volume/drivers/qsan/qsan_iscsi.py`).

Python strings are modelled as `List Char` (`Str`), so that Python's
`str.split(sep)` / `sep.join(...)` / `int(...)` / `str(...)` can be given
executable Lean counterparts with provable algebraic properties.
-/

/-- Python strings, modelled as lists of characters. -/
abbrev Str := List Char

/-- Python `s.split(sep)` for a one-character separator `sep`:
no merging of adjacent separators, and `"".split(sep) == [""]`. -/
def splitOnChar (sep : Char) : Str → List Str
  | [] => [[]]
  | c :: cs =>
    let rest := splitOnChar sep cs
    if c = sep then [] :: rest
    else
      match rest with
      | [] => [[c]]
      | r :: rs => (c :: r) :: rs

/-- Python `sep.join(pieces)` for a one-character separator. -/
def joinSep (sep : Char) : List Str → Str
  | [] => []
  | [s] => s
  | s :: ss => s ++ sep :: joinSep sep ss

/-- The character for a single decimal digit (`'?'` off-range, unused). -/
def digitToChar (d : Nat) : Char :=
  if d = 0 then '0' else if d = 1 then '1' else if d = 2 then '2'
  else if d = 3 then '3' else if d = 4 then '4' else if d = 5 then '5'
  else if d = 6 then '6' else if d = 7 then '7' else if d = 8 then '8'
  else if d = 9 then '9' else '?'

/-- Numeric value of a decimal digit character. -/
def digitVal (c : Char) : Nat := c.toNat - 48

/-- Whether `c` is an ASCII decimal digit. -/
def isDigitChar (c : Char) : Bool := 48 ≤ c.toNat && c.toNat ≤ 57

/-- Least-significant-first decimal digit characters of `n`; `fuel ≥ n`
makes the recursion structural while computing the true digit string. -/
def natReprAux : Nat → Nat → List Char
  | _, 0 => []
  | 0, _ + 1 => []
  | fuel + 1, n + 1 =>
    digitToChar ((n + 1) % 10) :: natReprAux fuel ((n + 1) / 10)

/-- Python `str(n)` for a nonnegative integer `n`. -/
def natRepr (n : Nat) : Str :=
  if n = 0 then ['0'] else (natReprAux n n).reverse

/-- Python `int(s)` restricted to the fragment the driver can produce:
a nonempty all-digit string parses to the corresponding nonnegative
integer, anything else raises `ValueError` (modelled as `none`). -/
def parseNat (s : Str) : Option Nat :=
  if s ≠ [] && s.all isDigitChar then
    some (s.foldl (fun acc c => acc * 10 + digitVal c) 0)
  else none

/-!
## Transport session: `QSANClient._request` (common.py, lines 119-156)

One attempt of `self.session.request(...)` followed by
`response.raise_for_status()` can end three ways.  Both a transport-level
connection failure and the `HTTPError` raised by `raise_for_status()` on a
4xx/5xx response are instances of `requests.exceptions.RequestException`,
which is the class the `except` clause inside the retry loop catches.
-/

/-- Outcome of one transport attempt.  `success body` carries
`response.json()` when the body is non-empty and `none` for an empty body
(`_request` returns `None` then). -/
inductive TransportOutcome where
  | success (body : Option String)
  | connectionError
  | httpStatusError (status : Nat)
deriving DecidableEq

/-- `requests.exceptions.RequestException` covers both connection-level
failures and the `HTTPError` raised by `raise_for_status()`. -/
def isRequestException : TransportOutcome → Bool
  | .success _ => false
  | .connectionError => true
  | .httpStatusError _ => true

/-- Result of a whole `_request` call: parsed body, `QSANApiException`,
or the implicit `None` returned when `range(retry_count)` is empty. -/
inductive RequestOutcome where
  | ok (body : Option String)
  | apiError
  | noAttempt
deriving DecidableEq

/-- Observable trace of a `_request` call: its outcome, the number of
transport attempts issued, and the number of fixed 1-second backoff
sleeps (`time.sleep(1)`) performed. -/
structure RequestTrace where
  outcome : RequestOutcome
  attempts : Nat
  sleeps : Nat
deriving DecidableEq

/-- The body of `for attempt in range(self.retry_count)` in
`QSANClient._request`: on a `RequestException` at `attempt`, retry (after
a 1-second sleep) iff `attempt < self.retry_count - 1`, else raise
`QSANApiException`.  `transport attempt` is what the wire does on the
given attempt; `calls`/`sleeps` accumulate the trace. -/
def requestLoop (transport : Nat → TransportOutcome) (retryCount : Nat) :
    List Nat → Nat → Nat → RequestTrace
  | [], calls, sleeps => ⟨.noAttempt, calls, sleeps⟩
  | attempt :: rest, calls, sleeps =>
    match transport attempt with
    | .success body => ⟨.ok body, calls + 1, sleeps⟩
    | _ =>
      if attempt < retryCount - 1 then
        requestLoop transport retryCount rest (calls + 1) (sleeps + 1)
      else ⟨.apiError, calls + 1, sleeps⟩

/-- `QSANClient._request`: run the retry loop over
`range(self.retry_count)`. -/
def request (transport : Nat → TransportOutcome) (retryCount : Nat) :
    RequestTrace :=
  requestLoop transport retryCount (List.range retryCount) 0 0

/-!
## Client operations (common.py)
-/

/-- `oslo_utils.units.Gi`: one binary gigabyte, `1024 ** 3`. -/
def units_Gi : Nat := 1024 * 1024 * 1024

/-- Request body sent by `QSANClient.create_volume`
(common.py, lines 160-176). -/
structure CreateVolumeBody where
  pool : String
  name : String
  size : Nat
  thin_provision : Bool
deriving DecidableEq

/-- `QSANClient.create_volume`: the body POSTed to `/volumes` converts the
gigabyte size via `size_gb * units.Gi`. -/
def QSANClient.create_volume (pool_name volume_name : String)
    (size_gb : Nat) (thin : Bool) : CreateVolumeBody :=
  { pool := pool_name
    name := volume_name
    size := size_gb * units_Gi
    thin_provision := thin }

/-- Request body sent by `QSANClient.extend_volume`
(common.py, lines 186-196). -/
structure ExtendVolumeBody where
  size : Nat
deriving DecidableEq

/-- `QSANClient.extend_volume`: the body PUT to `/volumes/{name}` converts
the gigabyte size via `new_size_gb * units.Gi`; the volume name only forms
the URL. -/
def QSANClient.extend_volume (_volume_name : String)
    (new_size_gb : Nat) : ExtendVolumeBody :=
  { size := new_size_gb * units_Gi }

/-- Mutable session state of a `QSANClient`: the `requests.Session`
connection handle and the bearer token (common.py, lines 65-66). -/
structure SessionState where
  session : Option Unit
  session_token : Option String
deriving DecidableEq

/-- Result of `QSANClient.logout`: the session state afterwards and the
number of POSTs to the `/logout` endpoint that were issued. -/
structure LogoutResult where
  state : SessionState
  logoutRequests : Nat
deriving DecidableEq

/-- `QSANClient.logout` (common.py, lines 103-117): return immediately if
`self.session is None or self.session_token is None`; otherwise issue the
logout request inside `try`, catch and log any `Exception`
(`requestRaises` says whether `self._request` raised), and in `finally`
set `self.session_token = None` and `self.session = None`. -/
def QSANClient.logout (requestRaises : Bool) (st : SessionState) :
    LogoutResult :=
  if st.session = none ∨ st.session_token = none then ⟨st, 0⟩
  else
    match requestRaises with
    | false => ⟨⟨none, none⟩, 1⟩
    | true => ⟨⟨none, none⟩, 1⟩

/-!
## Driver operations (qsan_iscsi.py)
-/

/-- Python truthiness of an optional configuration string: `None` and the
empty string are falsy. -/
def pyTruthy : Option Str → Bool
  | none => false
  | some s => !s.isEmpty

/-- `QSANISCSIDriver._get_iscsi_portals` (qsan_iscsi.py, lines 182-201):
use `qsan_iscsi_portals` when non-empty, else fall back to
`[qsan_management_ip]`; append `:3260` to any portal without a colon. -/
def QSANISCSIDriver._get_iscsi_portals (qsan_iscsi_portals : List Str)
    (qsan_management_ip : Str) : List Str :=
  let portals := if qsan_iscsi_portals ≠ [] then qsan_iscsi_portals
                 else [qsan_management_ip]
  portals.map (fun portal =>
    if portal.contains ':' then portal
    else portal ++ ':' :: ['3', '2', '6', '0'])

/-- The `provider_location` string built by `create_export`
(qsan_iscsi.py, lines 354-357):
`f"{';'.join(portals)} {target_iqn} {lun_id}"`. -/
def encodeLocation (portals : List Str) (target_iqn : Str)
    (lun_id : Nat) : Str :=
  joinSep ';' portals ++ ' ' :: (target_iqn ++ ' ' :: natRepr lun_id)

/-- The parsing step of `QSANISCSIDriver._get_iscsi_properties`
(qsan_iscsi.py, lines 474-478):
`location_parts = provider_location.split(' ')`,
`portals = location_parts[0].split(';')`,
`target_iqn = location_parts[1]`, `target_lun = int(location_parts[2])`.
`none` models the `IndexError`/`ValueError` a malformed string raises. -/
def decodeLocation (loc : Str) : Option (List Str × Str × Nat) :=
  let location_parts := splitOnChar ' ' loc
  match location_parts.get? 0, location_parts.get? 1,
      location_parts.get? 2 with
  | some part0, some iqnPart, some lunPart =>
    match parseNat lunPart with
    | some lun => some (splitOnChar ';' part0, iqnPart, lun)
    | none => none
  | _, _, _ => none

/-- CHAP configuration options consumed by `create_export`
(options.py: `StrOpt`s default to `None`). -/
structure ChapConfig where
  qsan_chap_enabled : Bool
  qsan_chap_username : Option Str
  qsan_chap_password : Option Str
deriving DecidableEq

/-- `f"CHAP {chap_user} {chap_pass}"` (qsan_iscsi.py, line 352). -/
def chapAuthString (chap_user chap_pass : Str) : Str :=
  'C' :: 'H' :: 'A' :: 'P' :: ' ' :: chap_user ++ ' ' :: chap_pass

/-- Remote-side inputs to one `create_export` run in which every client
call succeeds: the IQN returned by `create_iscsi_target`, the
`lun_id` key of the mapping returned by `map_volume_to_target`
(`None` when the key is absent), and the configuration. -/
structure CreateExportEnv where
  target_iqn : Str
  mapping_lun_id : Option Nat
  qsan_iscsi_portals : List Str
  qsan_management_ip : Str
  chap : ChapConfig
deriving DecidableEq

/-- Driver-observable outcome of a successful `create_export`:
the returned model update and the number of `set_target_chap` calls. -/
structure CreateExportResult where
  provider_location : Str
  provider_auth : Option Str
  chapCalls : Nat
deriving DecidableEq

/-- `QSANISCSIDriver.create_export` (qsan_iscsi.py, lines 318-365), on the
path where every client call succeeds: `lun_id =
mapping_info.get('lun_id', 0)`; CHAP is set (and `provider_auth` built)
only when `qsan_chap_enabled` and both `qsan_chap_username` and
`qsan_chap_password` are truthy; `provider_location` is the encoded
portal/IQN/LUN string. -/
def QSANISCSIDriver.create_export (env : CreateExportEnv) :
    CreateExportResult :=
  let lun_id := env.mapping_lun_id.getD 0
  let chapDone := env.chap.qsan_chap_enabled &&
    pyTruthy env.chap.qsan_chap_username &&
    pyTruthy env.chap.qsan_chap_password
  let provider_auth : Option Str :=
    if chapDone then
      some (chapAuthString (env.chap.qsan_chap_username.getD [])
        (env.chap.qsan_chap_password.getD []))
    else none
  let portals := QSANISCSIDriver._get_iscsi_portals
    env.qsan_iscsi_portals env.qsan_management_ip
  { provider_location := encodeLocation portals env.target_iqn lun_id
    provider_auth := provider_auth
    chapCalls := if chapDone then 1 else 0 }

/-- Error raised out of `_get_iscsi_properties`:
`VolumeBackendAPIException` for a missing `provider_location`, or the
`IndexError`/`ValueError` a malformed location string raises. -/
inductive PropError where
  | noProviderLocation
  | malformedLocation
deriving DecidableEq

/-- The iSCSI connection-properties dictionary assembled by
`_get_iscsi_properties` (qsan_iscsi.py, lines 480-502); `none` in an
`Option` field models an absent dictionary key. -/
structure IscsiProperties where
  target_discovered : Bool
  target_iqn : Str
  target_portal : Str
  target_lun : Nat
  target_portals : Option (List Str)
  target_iqns : Option (List Str)
  target_luns : Option (List Nat)
  auth_method : Option Str
  auth_username : Option Str
  auth_password : Option Str
deriving DecidableEq

/-- `QSANISCSIDriver._get_iscsi_properties` (qsan_iscsi.py, lines
464-502): raise when `provider_location` is falsy (`None` or empty);
parse it; build the base properties from `portals[0]`; add the three
multipath arrays only when `len(portals) > 1`, replicating the IQN and
LUN; decode a truthy `provider_auth` of at least three space-separated
parts into the three auth keys. -/
def QSANISCSIDriver._get_iscsi_properties (provider_location : Option Str)
    (provider_auth : Option Str) : Except PropError IscsiProperties :=
  match provider_location with
  | none => .error .noProviderLocation
  | some loc =>
    if loc.isEmpty then .error .noProviderLocation
    else
      match decodeLocation loc with
      | none => .error .malformedLocation
      | some (portals, target_iqn, target_lun) =>
        let base : IscsiProperties :=
          { target_discovered := false
            target_iqn := target_iqn
            target_portal := portals.headD []
            target_lun := target_lun
            target_portals :=
              if 1 < portals.length then some portals else none
            target_iqns :=
              if 1 < portals.length then
                some (List.replicate portals.length target_iqn)
              else none
            target_luns :=
              if 1 < portals.length then
                some (List.replicate portals.length target_lun)
              else none
            auth_method := none
            auth_username := none
            auth_password := none }
        if pyTruthy provider_auth then
          let auth_parts := splitOnChar ' ' (provider_auth.getD [])
          if 3 ≤ auth_parts.length then
            .ok { base with
              auth_method := auth_parts.get? 0
              auth_username := auth_parts.get? 1
              auth_password := auth_parts.get? 2 }
          else .ok base
        else .ok base

/-- Decidable equality for `Except`, needed to evaluate driver outcomes
on concrete inputs. -/
instance {e a : Type} [DecidableEq e] [DecidableEq a] :
    DecidableEq (Except e a) := fun x y =>
  match x, y with
  | .error u, .error v => decidable_of_iff (u = v) (by simp)
  | .error _, .ok _ => isFalse (by simp)
  | .ok _, .error _ => isFalse (by simp)
  | .ok u, .ok v => decidable_of_iff (u = v) (by simp)

/-- Remote-side inputs to `initialize_connection`: the result of
`get_iscsi_target_by_name` (which swallows `QSANApiException` and may
return `None`) and whether `add_initiator_to_target` raises. -/
structure InitConnEnv where
  targetLookup : Option Nat
  addInitiatorRaises : Bool
deriving DecidableEq

/-- The dictionary returned by `initialize_connection`. -/
structure ConnectionInfo where
  driver_volume_type : Str
  data : IscsiProperties
deriving DecidableEq

/-- Observable outcome of `initialize_connection`: its return value or
raised error, and the number of `add_initiator_to_target` calls. -/
structure InitConnResult where
  result : Except PropError ConnectionInfo
  aclAddCalls : Nat
deriving DecidableEq

/-- `QSANISCSIDriver.initialize_connection` (qsan_iscsi.py, lines
422-462): when the connector carries an `initiator` and the target lookup
finds the target, call `add_initiator_to_target`, swallowing any
`QSANApiException` it raises; then build the connection dictionary from
`_get_iscsi_properties`, re-raising (`save_and_reraise_exception`) any
error it raises. -/
def QSANISCSIDriver.initialize_connection (env : InitConnEnv)
    (connectorInitiator : Option Str)
    (provider_location provider_auth : Option Str) : InitConnResult :=
  let aclAddCalls :=
    match connectorInitiator, env.targetLookup with
    | some _, some _ => 1
    | _, _ => 0
  match QSANISCSIDriver._get_iscsi_properties provider_location
      provider_auth with
  | .error e => ⟨.error e, aclAddCalls⟩
  | .ok props =>
    ⟨.ok { driver_volume_type := "iscsi".toList, data := props },
      aclAddCalls⟩

/-- Remote-side inputs to `delete_volume` / `delete_snapshot`: the result
of the presence check (`get_volume` / `get_snapshot` return `None` both
for an absent resource and for a failed lookup) and whether the remote
delete call raises `QSANApiException`. -/
structure DeleteEnv where
  getResult : Option Unit
  deleteRaises : Bool
deriving DecidableEq

/-- Observable outcome of a driver teardown operation: normal return or
`VolumeBackendAPIException` (modelled as `Except.error ()`), and the
number of remote delete calls issued. -/
structure DeleteResult where
  outcome : Except Unit Unit
  deleteCalls : Nat
deriving DecidableEq

/-- `QSANISCSIDriver.delete_volume` (qsan_iscsi.py, lines 273-295):
`get_volume` first; when it returns `None`, log and return without
calling `client.delete_volume`; otherwise delete, wrapping a
`QSANApiException` as `VolumeBackendAPIException`. -/
def QSANISCSIDriver.delete_volume (env : DeleteEnv) : DeleteResult :=
  match env.getResult with
  | none => ⟨.ok (), 0⟩
  | some _ =>
    if env.deleteRaises then ⟨.error (), 1⟩ else ⟨.ok (), 1⟩

/-- `QSANISCSIDriver.delete_snapshot` (qsan_iscsi.py, lines 555-580):
`get_snapshot` first; when it returns `None`, log and return without
calling `client.delete_snapshot`; otherwise delete, wrapping a
`QSANApiException` as `VolumeBackendAPIException`. -/
def QSANISCSIDriver.delete_snapshot (env : DeleteEnv) : DeleteResult :=
  match env.getResult with
  | none => ⟨.ok (), 0⟩
  | some _ =>
    if env.deleteRaises then ⟨.error (), 1⟩ else ⟨.ok (), 1⟩

/-- Remote-side inputs to `remove_export`: the result of
`get_iscsi_target_by_name` (the target's `id`, or `None` when absent or
when the lookup failed) and whether `delete_iscsi_target` raises. -/
structure RemoveExportEnv where
  targetLookup : Option Nat
  deleteRaises : Bool
deriving DecidableEq

/-- `QSANISCSIDriver.remove_export` (qsan_iscsi.py, lines 390-420): look
the target up by its deterministic name; when absent, log and return
without calling `delete_iscsi_target`; otherwise delete it, wrapping a
`QSANApiException` as `VolumeBackendAPIException`. -/
def QSANISCSIDriver.remove_export (env : RemoveExportEnv) : DeleteResult :=
  match env.targetLookup with
  | none => ⟨.ok (), 0⟩
  | some _ =>
    if env.deleteRaises then ⟨.error (), 1⟩ else ⟨.ok (), 1⟩

theorem natReprAux_eq_digits (fuel : Nat) :
    ∀ n, n ≤ fuel → natReprAux fuel n = (Nat.digits 10 n).map digitToChar := by
  induction fuel with
  | zero =>
    intro n hn
    interval_cases n
    simp [natReprAux]
  | succ fuel ih =>
    intro n hn
    match n with
    | 0 => simp [natReprAux]
    | m + 1 =>
      have hdiv : (m + 1) / 10 ≤ fuel :=
        le_trans (Nat.le_of_lt_succ (Nat.div_lt_self (Nat.succ_pos m)
          (by norm_num))) (Nat.le_of_succ_le_succ hn)
      rw [natReprAux, ih ((m + 1) / 10) hdiv,
        Nat.digits_def' (b := 10) (by norm_num) (Nat.succ_pos m)]
      rfl

/-- `natRepr` agrees with the `Nat.digits`-based characterisation. -/
theorem natRepr_eq (n : Nat) :
    natRepr n =
      if n = 0 then ['0'] else ((Nat.digits 10 n).map digitToChar).reverse := by
  by_cases h : n = 0
  · simp [natRepr, h]
  · rw [natRepr, if_neg h, if_neg h, natReprAux_eq_digits n n (Nat.le_refl n)]

-- ===== splitOnChar / joinSep round-trip lemmas =====

theorem splitOnChar_no_sep (sep : Char) (s : Str) (h : ∀ c ∈ s, c ≠ sep) :
    splitOnChar sep s = [s] := by
  induction s with
  | nil => rfl
  | cons c cs ih =>
    have hc : c ≠ sep := h c (List.mem_cons_self c cs)
    have hrest : splitOnChar sep cs = [cs] :=
      ih (fun x hx => h x (List.mem_cons_of_mem c hx))
    simp [splitOnChar, hc, hrest]

theorem splitOnChar_append (sep : Char) (s t : Str) (h : ∀ c ∈ s, c ≠ sep) :
    splitOnChar sep (s ++ sep :: t) = s :: splitOnChar sep t := by
  induction s with
  | nil => simp [splitOnChar]
  | cons c cs ih =>
    have hc : c ≠ sep := h c (List.mem_cons_self c cs)
    have hrest := ih (fun x hx => h x (List.mem_cons_of_mem c hx))
    simp only [List.cons_append, splitOnChar, if_neg hc, List.append_eq, hrest]

theorem mem_joinSep (sep : Char) (ps : List Str) (c : Char)
    (h : c ∈ joinSep sep ps) : c = sep ∨ ∃ p ∈ ps, c ∈ p := by
  induction ps with
  | nil => simp [joinSep] at h
  | cons p ps ih =>
    cases ps with
    | nil =>
      simp only [joinSep] at h
      exact Or.inr ⟨p, List.mem_cons_self p [], h⟩
    | cons q qs =>
      simp only [joinSep, List.mem_append, List.mem_cons] at h
      rcases h with hp | rfl | hq
      · exact Or.inr ⟨p, List.mem_cons_self _ _, hp⟩
      · exact Or.inl rfl
      · rcases ih hq with h1 | ⟨r, hr, hcr⟩
        · exact Or.inl h1
        · exact Or.inr ⟨r, List.mem_cons_of_mem _ hr, hcr⟩

theorem splitOnChar_joinSep (sep : Char) (ps : List Str) (hne : ps ≠ [])
    (h : ∀ p ∈ ps, ∀ c ∈ p, c ≠ sep) :
    splitOnChar sep (joinSep sep ps) = ps := by
  induction ps with
  | nil => exact absurd rfl hne
  | cons p ps ih =>
    cases ps with
    | nil =>
      simpa [joinSep] using
        splitOnChar_no_sep sep p (h p (List.mem_cons_self p []))
    | cons q qs =>
      have hp : ∀ c ∈ p, c ≠ sep := h p (List.mem_cons_self _ _)
      have hrest : ∀ r ∈ q :: qs, ∀ c ∈ r, c ≠ sep :=
        fun r hr => h r (List.mem_cons_of_mem _ hr)
      have := splitOnChar_append sep p (joinSep sep (q :: qs)) hp
      simp only [joinSep]
      rw [this, ih (by simp) hrest]

-- ===== natRepr / parseNat round-trip lemmas =====

theorem digitVal_digitToChar (d : Nat) (h : d < 10) :
    digitVal (digitToChar d) = d := by
  interval_cases d <;> decide

theorem isDigitChar_digitToChar (d : Nat) (h : d < 10) :
    isDigitChar (digitToChar d) = true := by
  interval_cases d <;> decide

theorem natRepr_all_digits (n : Nat) : (natRepr n).all isDigitChar = true := by
  rw [natRepr_eq]
  split
  · decide
  · rw [List.all_eq_true]
    intro c hc
    rw [List.mem_reverse, List.mem_map] at hc
    obtain ⟨d, hd, rfl⟩ := hc
    exact isDigitChar_digitToChar d (Nat.digits_lt_base (by norm_num) hd)

theorem natRepr_ne_nil (n : Nat) : natRepr n ≠ [] := by
  rw [natRepr_eq]
  split
  · simp
  · simp [Nat.digits_ne_nil_iff_ne_zero, *]

theorem foldr_digits_eq_ofDigits (L : List Nat) (h : ∀ d ∈ L, d < 10) :
    L.foldr (fun d acc => acc * 10 + digitVal (digitToChar d)) 0 =
      Nat.ofDigits 10 L := by
  induction L with
  | nil => simp [Nat.ofDigits]
  | cons d L ih =>
    have hd : d < 10 := h d (List.mem_cons_self d L)
    have hL := ih (fun x hx => h x (List.mem_cons_of_mem d hx))
    simp only [List.foldr_cons, hL, digitVal_digitToChar d hd,
      Nat.ofDigits_cons]
    ring

theorem parseNat_natRepr (n : Nat) : parseNat (natRepr n) = some n := by
  rw [parseNat, if_pos (by simp [natRepr_ne_nil, natRepr_all_digits])]
  congr 1
  by_cases h0 : n = 0
  · subst h0; decide
  · rw [natRepr_eq, if_neg h0, List.foldl_reverse]
    have hlt : ∀ d ∈ Nat.digits 10 n, d < 10 :=
      fun d hd => Nat.digits_lt_base (by norm_num) hd
    have : ((Nat.digits 10 n).map digitToChar).foldr
        (fun c acc => acc * 10 + digitVal c) 0 =
        (Nat.digits 10 n).foldr (fun d acc => acc * 10 + digitVal (digitToChar d)) 0 := by
      rw [List.foldr_map]
    rw [this, foldr_digits_eq_ofDigits _ hlt, Nat.ofDigits_digits]

-- ===== retry-loop lemmas =====

theorem requestLoop_fail_all (transport : Nat → TransportOutcome)
    (N : Nat) (n : Nat) :
    ∀ a calls sleeps, a + n = N → 1 ≤ n →
    (∀ i, a ≤ i → i < N → isRequestException (transport i) = true) →
    requestLoop transport N (List.range' a n) calls sleeps =
      ⟨.apiError, calls + n, sleeps + (n - 1)⟩ := by
  induction n with
  | zero => intro a calls sleeps _ h1; omega
  | succ n ih =>
    intro a calls sleeps haN _ hfail
    rw [List.range'_succ]
    have hexc : isRequestException (transport a) = true :=
      hfail a (Nat.le_refl a) (by omega)
    simp only [requestLoop]
    cases htr : transport a with
    | success body => rw [htr] at hexc; simp [isRequestException] at hexc
    | connectionError =>
      by_cases hlast : a < N - 1
      · rw [if_pos hlast]
        have hn : 1 ≤ n := by omega
        rw [ih (a + 1) (calls + 1) (sleeps + 1) (by omega) hn
          (fun i hi hiN => hfail i (by omega) hiN)]
        simp only [RequestTrace.mk.injEq]
        exact ⟨trivial, by omega, by omega⟩
      · rw [if_neg hlast]
        have : n = 0 := by omega
        subst this
        rfl
    | httpStatusError s =>
      by_cases hlast : a < N - 1
      · rw [if_pos hlast]
        have hn : 1 ≤ n := by omega
        rw [ih (a + 1) (calls + 1) (sleeps + 1) (by omega) hn
          (fun i hi hiN => hfail i (by omega) hiN)]
        simp only [RequestTrace.mk.injEq]
        exact ⟨trivial, by omega, by omega⟩
      · rw [if_neg hlast]
        have : n = 0 := by omega
        subst this
        rfl

theorem requestLoop_succ_at (transport : Nat → TransportOutcome)
    (N : Nat) (k : Nat) (body : Option String) (n : Nat) :
    ∀ a calls sleeps, a + n = N → a ≤ k → k < N →
    (∀ i, a ≤ i → i < k → isRequestException (transport i) = true) →
    transport k = .success body →
    requestLoop transport N (List.range' a n) calls sleeps =
      ⟨.ok body, calls + (k - a) + 1, sleeps + (k - a)⟩ := by
  induction n with
  | zero => intro a calls sleeps haN hak hkN _ _; omega
  | succ n ih =>
    intro a calls sleeps haN hak hkN hfail hsucc
    rw [List.range'_succ]
    simp only [requestLoop]
    by_cases hek : a = k
    · subst hek
      rw [hsucc]
      simp
    · have hexc : isRequestException (transport a) = true :=
        hfail a (Nat.le_refl a) (by omega)
      have hlast : a < N - 1 := by omega
      cases htr : transport a with
      | success body => rw [htr] at hexc; simp [isRequestException] at hexc
      | connectionError =>
        rw [if_pos hlast,
          ih (a + 1) (calls + 1) (sleeps + 1) (by omega) (by omega) hkN
            (fun i hi hik => hfail i (by omega) hik) hsucc]
        simp only [RequestTrace.mk.injEq]
        exact ⟨trivial, by omega, by omega⟩
      | httpStatusError s =>
        rw [if_pos hlast,
          ih (a + 1) (calls + 1) (sleeps + 1) (by omega) (by omega) hkN
            (fun i hi hik => hfail i (by omega) hik) hsucc]
        simp only [RequestTrace.mk.injEq]
        exact ⟨trivial, by omega, by omega⟩

-- ===== shared codec lemmas =====

theorem joinSep_no_space (portals : List Str)
    (h : ∀ p ∈ portals, ∀ c ∈ p, c ≠ ' ') :
    ∀ c ∈ joinSep ';' portals, c ≠ ' ' := by
  intro c hc
  rcases mem_joinSep ';' portals c hc with rfl | ⟨p, hp, hcp⟩
  · decide
  · exact h p hp c hcp

theorem natRepr_no_space (n : Nat) : ∀ c ∈ natRepr n, c ≠ ' ' := by
  intro c hc heq
  have hall := natRepr_all_digits n
  rw [List.all_eq_true] at hall
  have hd := hall c hc
  subst heq
  exact absurd hd (by decide)

theorem splitOnChar_encodeLocation (portals : List Str) (iqn : Str)
    (lun : Nat) (hportal : ∀ p ∈ portals, ∀ c ∈ p, c ≠ ' ')
    (hiqn : ∀ c ∈ iqn, c ≠ ' ') :
    splitOnChar ' ' (encodeLocation portals iqn lun) =
      [joinSep ';' portals, iqn, natRepr lun] := by
  rw [encodeLocation,
    splitOnChar_append ' ' _ _ (joinSep_no_space portals hportal),
    splitOnChar_append ' ' _ _ hiqn,
    splitOnChar_no_sep ' ' _ (natRepr_no_space lun)]

theorem decode_encode_sepfree (portals : List Str) (iqn : Str) (lun : Nat)
    (hne : portals ≠ [])
    (hportal : ∀ p ∈ portals, ∀ c ∈ p, c ≠ ' ' ∧ c ≠ ';')
    (hiqn : ∀ c ∈ iqn, c ≠ ' ') :
    decodeLocation (encodeLocation portals iqn lun) =
      some (portals, iqn, lun) := by
  have hsp : ∀ p ∈ portals, ∀ c ∈ p, c ≠ ' ' :=
    fun p hp c hc => (hportal p hp c hc).1
  have hsemi : ∀ p ∈ portals, ∀ c ∈ p, c ≠ ';' :=
    fun p hp c hc => (hportal p hp c hc).2
  rw [decodeLocation]
  rw [splitOnChar_encodeLocation portals iqn lun hsp hiqn]
  simp only [List.get?, parseNat_natRepr,
    splitOnChar_joinSep ';' portals hne hsemi]

theorem encodeLocation_ne_nil (portals : List Str) (iqn : Str) (lun : Nat) :
    encodeLocation portals iqn lun ≠ [] := by
  rw [encodeLocation]
  intro h
  rcases List.append_eq_nil.mp h with ⟨-, h2⟩
  exact List.cons_ne_nil _ _ h2

/-!
## Claims
-/

/-- C1 counterexample: with `retry_count = 3`, a `_request` call whose
every attempt receives an HTTP 500 status response makes 3 attempts and
sleeps twice before failing with `ApiError` — not exactly one attempt, so
HTTP-status errors are retried. -/
theorem C1_counterexample :
    (request (fun _ => .httpStatusError 500) 3).outcome = .apiError ∧
    (request (fun _ => .httpStatusError 500) 3).attempts = 3 ∧
    (request (fun _ => .httpStatusError 500) 3).attempts ≠ 1 ∧
    (request (fun _ => .httpStatusError 500) 3).sleeps = 2 := by
  decide

/-- C1 (amended): an HTTP 4xx/5xx status error raised by an attempt is an
instance of `RequestException` and is retried exactly like a
connection-level failure: a `_request` call whose every attempt receives
an HTTP status error fails with `ApiError` only after `retry_count`
attempts, sleeping the fixed backoff after each attempt but the last. -/
theorem C1_http_status_retried (transport : Nat → TransportOutcome)
    (N : Nat) (hN : 1 ≤ N)
    (hfail : ∀ i, i < N → ∃ s, transport i = .httpStatusError s) :
    request transport N = ⟨.apiError, N, N - 1⟩ := by
  rw [request, List.range_eq_range']
  have h := requestLoop_fail_all transport N N 0 0 0 (by omega) hN
    (fun i _ hiN => by obtain ⟨s, hs⟩ := hfail i hiN; rw [hs]; rfl)
  simpa using h

/-- Concrete instance of the amended C1 theorem. -/
theorem C1_witness :
    request (fun _ => .httpStatusError 404) 2 = ⟨.apiError, 2, 1⟩ :=
  C1_http_status_retried (fun _ => .httpStatusError 404) 2 (by decide)
    (fun _ _ => ⟨404, rfl⟩)

/-- C2 counterexample: a portal containing the `';'` delimiter does not
round-trip: encoding the portal list `["a;b"]` with IQN `"i"` and LUN 0
decodes to the portal list `["a", "b"]`. -/
theorem C2_counterexample :
    decodeLocation (encodeLocation [['a', ';', 'b']] ['i'] 0) =
      some ([['a'], ['b']], ['i'], 0) ∧
    decodeLocation (encodeLocation [['a', ';', 'b']] ['i'] 0) ≠
      some ([['a', ';', 'b']], ['i'], 0) := by
  decide

/-- C2 (amended): for every non-empty portal list whose portals contain
neither a space nor a semicolon, every IQN containing no space, and every
LUN ≥ 0, decoding the encoded ExportLocation string recovers exactly the
original portals, IQN and LUN. -/
theorem C2_export_location_roundtrip (portals : List Str) (iqn : Str)
    (lun : Nat) (hne : portals ≠ [])
    (hportal : ∀ p ∈ portals, ∀ c ∈ p, c ≠ ' ' ∧ c ≠ ';')
    (hiqn : ∀ c ∈ iqn, c ≠ ' ') :
    decodeLocation (encodeLocation portals iqn lun) =
      some (portals, iqn, lun) :=
  decode_encode_sepfree portals iqn lun hne hportal hiqn

/-- Concrete instance of the amended C2 round-trip theorem. -/
theorem C2_witness :
    decodeLocation
        (encodeLocation [['1', '0', ':', '3'], ['p']] ['i', 'q'] 7) =
      some ([['1', '0', ':', '3'], ['p']], ['i', 'q'], 7) :=
  C2_export_location_roundtrip [['1', '0', ':', '3'], ['p']] ['i', 'q'] 7
    (by decide) (by decide) (by decide)

/-- C3: with `retry_count = N ≥ 1`, a `_request` call whose every attempt
fails with a connectivity error makes exactly N attempts total and then
fails with `ApiError`, sleeping the fixed backoff after each failed
attempt other than the last (N − 1 sleeps); a call failing with
connectivity errors on the first k attempts (k < N) and succeeding on
attempt k+1 returns the success result after exactly k+1 attempts and k
sleeps. -/
theorem C3_retry_budget (transport : Nat → TransportOutcome) (N : Nat)
    (hN : 1 ≤ N) :
    ((∀ i, i < N → transport i = .connectionError) →
      request transport N = ⟨.apiError, N, N - 1⟩) ∧
    (∀ k body, k < N →
      (∀ i, i < k → transport i = .connectionError) →
      transport k = .success body →
      request transport N = ⟨.ok body, k + 1, k⟩) := by
  constructor
  · intro hfail
    rw [request, List.range_eq_range']
    have h := requestLoop_fail_all transport N N 0 0 0 (by omega) hN
      (fun i _ hiN => by rw [hfail i hiN]; rfl)
    simpa using h
  · intro k body hkN hfail hsucc
    rw [request, List.range_eq_range']
    have h := requestLoop_succ_at transport N k body N 0 0 0 (by omega)
      (Nat.zero_le k) hkN (fun i _ hik => by rw [hfail i hik]; rfl) hsucc
    simpa using h

/-- Concrete instances of the C3 retry-budget theorem: all three attempts
fail, and two failures followed by a success. -/
theorem C3_witness :
    request (fun _ => .connectionError) 3 = ⟨.apiError, 3, 2⟩ ∧
    request (fun i => if i < 2 then .connectionError
      else .success (some "done")) 3 = ⟨.ok (some "done"), 3, 2⟩ :=
  ⟨(C3_retry_budget (fun _ => .connectionError) 3 (by decide)).1
      (fun _ _ => rfl),
    (C3_retry_budget _ 3 (by decide)).2 2 (some "done") (by decide)
      (fun i hi => by simp [hi]) rfl⟩

/-- C4: in `create_export` with CHAP enabled by configuration, when the
CHAP username or the password is unset (`None` or empty, i.e. falsy),
`set_target_chap` is never invoked and the returned `provider_auth` is
`None`; when both are set, `set_target_chap` is invoked once and
`provider_auth` is `"CHAP <username> <password>"`. -/
theorem C4_chap_gating (env : CreateExportEnv)
    (henabled : env.chap.qsan_chap_enabled = true) :
    ((pyTruthy env.chap.qsan_chap_username = false ∨
      pyTruthy env.chap.qsan_chap_password = false) →
      (QSANISCSIDriver.create_export env).chapCalls = 0 ∧
      (QSANISCSIDriver.create_export env).provider_auth = none) ∧
    (∀ u p, env.chap.qsan_chap_username = some u →
      env.chap.qsan_chap_password = some p → u ≠ [] → p ≠ [] →
      (QSANISCSIDriver.create_export env).chapCalls = 1 ∧
      (QSANISCSIDriver.create_export env).provider_auth =
        some (chapAuthString u p)) := by
  constructor
  · rintro (h | h) <;>
      simp [QSANISCSIDriver.create_export, henabled, h]
  · intro u p hu hp hune hpne
    have hu' : pyTruthy (some u) = true := by
      cases u with
      | nil => exact absurd rfl hune
      | cons a l => rfl
    have hp' : pyTruthy (some p) = true := by
      cases p with
      | nil => exact absurd rfl hpne
      | cons a l => rfl
    simp [QSANISCSIDriver.create_export, henabled, hu, hp, hu', hp']

/-- Concrete instances of the C4 CHAP-gating theorem: enabled with a
missing password, and enabled with both credentials set. -/
theorem C4_witness :
    (QSANISCSIDriver.create_export
      { target_iqn := ['i'], mapping_lun_id := some 0,
        qsan_iscsi_portals := [], qsan_management_ip := ['m'],
        chap := { qsan_chap_enabled := true,
                  qsan_chap_username := some ['u'],
                  qsan_chap_password := none } }).chapCalls = 0 ∧
    (QSANISCSIDriver.create_export
      { target_iqn := ['i'], mapping_lun_id := some 0,
        qsan_iscsi_portals := [], qsan_management_ip := ['m'],
        chap := { qsan_chap_enabled := true,
                  qsan_chap_username := some ['u'],
                  qsan_chap_password := some ['w'] } }).provider_auth =
      some (chapAuthString ['u'] ['w']) :=
  ⟨((C4_chap_gating
      { target_iqn := ['i'], mapping_lun_id := some 0,
        qsan_iscsi_portals := [], qsan_management_ip := ['m'],
        chap := { qsan_chap_enabled := true,
                  qsan_chap_username := some ['u'],
                  qsan_chap_password := none } } rfl).1 (Or.inr rfl)).1,
    ((C4_chap_gating
      { target_iqn := ['i'], mapping_lun_id := some 0,
        qsan_iscsi_portals := [], qsan_management_ip := ['m'],
        chap := { qsan_chap_enabled := true,
                  qsan_chap_username := some ['u'],
                  qsan_chap_password := some ['w'] } } rfl).2
      ['u'] ['w'] rfl rfl (by decide) (by decide)).2⟩

/-- C5: `delete_volume` on a volume whose presence check (`get_volume`)
returns absent issues zero remote delete calls and raises no error; the
same holds for `delete_snapshot` when `get_snapshot` returns absent. -/
theorem C5_idempotent_delete (envV envS : DeleteEnv)
    (hv : envV.getResult = none) (hs : envS.getResult = none) :
    QSANISCSIDriver.delete_volume envV = ⟨.ok (), 0⟩ ∧
    QSANISCSIDriver.delete_snapshot envS = ⟨.ok (), 0⟩ := by
  constructor
  · simp [QSANISCSIDriver.delete_volume, hv]
  · simp [QSANISCSIDriver.delete_snapshot, hs]

/-- Concrete instance of the C5 idempotent-delete theorem, with a delete
call that would raise had it been issued. -/
theorem C5_witness :
    QSANISCSIDriver.delete_volume ⟨none, true⟩ = ⟨.ok (), 0⟩ ∧
    QSANISCSIDriver.delete_snapshot ⟨none, true⟩ = ⟨.ok (), 0⟩ :=
  C5_idempotent_delete ⟨none, true⟩ ⟨none, true⟩ rfl rfl

/-- C6: `remove_export` on a volume whose deterministic target name has
no matching target (the lookup returns absent) issues zero remote delete
calls and raises no error. -/
theorem C6_idempotent_remove_export (env : RemoveExportEnv)
    (h : env.targetLookup = none) :
    QSANISCSIDriver.remove_export env = ⟨.ok (), 0⟩ := by
  simp [QSANISCSIDriver.remove_export, h]

/-- Concrete instance of the C6 idempotent-removal theorem, with a delete
call that would raise had it been issued. -/
theorem C6_witness :
    QSANISCSIDriver.remove_export ⟨none, true⟩ = ⟨.ok (), 0⟩ :=
  C6_idempotent_remove_export ⟨none, true⟩ rfl

/-- C7: decoding a persisted ExportLocation with more than one portal
yields parallel `target_portals` / `target_iqns` / `target_luns` arrays
of the same length as the portal list, the single IQN and LUN replicated
across every entry; with exactly one portal, none of the three multipath
keys is present. -/
theorem C7_multipath_expansion (portals : List Str) (iqn : Str) (lun : Nat)
    (hne : portals ≠ [])
    (hportal : ∀ p ∈ portals, ∀ c ∈ p, c ≠ ' ' ∧ c ≠ ';')
    (hiqn : ∀ c ∈ iqn, c ≠ ' ') :
    (QSANISCSIDriver._get_iscsi_properties
        (some (encodeLocation portals iqn lun)) none).map
      (fun props =>
        (props.target_portals, props.target_iqns, props.target_luns)) =
    .ok (if 1 < portals.length then
          (some portals, some (List.replicate portals.length iqn),
            some (List.replicate portals.length lun))
        else (none, none, none)) := by
  have hdec := decode_encode_sepfree portals iqn lun hne hportal hiqn
  have hemp : (encodeLocation portals iqn lun).isEmpty = false := by
    cases h : encodeLocation portals iqn lun with
    | nil => exact absurd h (encodeLocation_ne_nil portals iqn lun)
    | cons a l => rfl
  simp only [QSANISCSIDriver._get_iscsi_properties, hemp, hdec, pyTruthy,
    Bool.false_eq_true, if_false, Except.map]
  by_cases hlen : 1 < portals.length <;> simp [hlen]

/-- Concrete instances of the C7 multipath-expansion theorem: two portals
and one portal. -/
theorem C7_witness :
    (QSANISCSIDriver._get_iscsi_properties
        (some (encodeLocation [['a'], ['b']] ['i'] 0)) none).map
      (fun props =>
        (props.target_portals, props.target_iqns, props.target_luns)) =
      .ok (some [['a'], ['b']], some [['i'], ['i']], some [0, 0]) ∧
    (QSANISCSIDriver._get_iscsi_properties
        (some (encodeLocation [['a']] ['i'] 0)) none).map
      (fun props =>
        (props.target_portals, props.target_iqns, props.target_luns)) =
      .ok (none, none, none) :=
  ⟨(C7_multipath_expansion [['a'], ['b']] ['i'] 0 (by decide) (by decide)
      (by decide)).trans (by decide),
    (C7_multipath_expansion [['a']] ['i'] 0 (by decide) (by decide)
      (by decide)).trans (by decide)⟩

/-- C8: `logout` is a no-op when there is no connection handle or no
active token; otherwise — whether or not the remote logout request raises
— no error propagates (the call returns normally), one logout request is
issued, and both the token and the connection handle are cleared. -/
theorem C8_logout_clears (requestRaises : Bool) (st : SessionState) :
    (st.session = none ∨ st.session_token = none →
      QSANClient.logout requestRaises st = ⟨st, 0⟩) ∧
    (st.session ≠ none → st.session_token ≠ none →
      QSANClient.logout requestRaises st = ⟨⟨none, none⟩, 1⟩) := by
  constructor
  · intro h
    rw [QSANClient.logout.eq_def, if_pos h]
  · intro h1 h2
    rw [QSANClient.logout.eq_def, if_neg (by tauto)]
    cases requestRaises <;> rfl

/-- Concrete instances of the C8 logout theorem: an active session whose
logout request raises, and a session with a token but no handle. -/
theorem C8_witness :
    QSANClient.logout true ⟨some (), some "tok"⟩ = ⟨⟨none, none⟩, 1⟩ ∧
    QSANClient.logout false ⟨none, some "tok"⟩ = ⟨⟨none, some "tok"⟩, 0⟩ :=
  ⟨(C8_logout_clears true ⟨some (), some "tok"⟩).2 (by decide) (by decide),
    (C8_logout_clears false ⟨none, some "tok"⟩).1 (Or.inl rfl)⟩

/-- C9: `create_volume` and `extend_volume` convert a gigabyte size s to
bytes as s * 2^30 (binary gigabyte) in the request body, `create_volume`
passing the configured thin-provision flag through; for s = 10 the create
body carries size 10 * 2^30. -/
theorem C9_binary_gigabyte (pool_name volume_name : String) (s : Nat)
    (thin : Bool) :
    (QSANClient.create_volume pool_name volume_name s thin).size =
      s * 2 ^ 30 ∧
    (QSANClient.create_volume pool_name volume_name s thin).thin_provision
      = thin ∧
    (QSANClient.extend_volume volume_name s).size = s * 2 ^ 30 ∧
    (QSANClient.create_volume pool_name volume_name 10 thin).size =
      10 * 2 ^ 30 := by
  have hGi : units_Gi = 2 ^ 30 := by norm_num [units_Gi]
  exact ⟨by simp [QSANClient.create_volume, hGi],
    rfl,
    by simp [QSANClient.extend_volume, hGi],
    by simp [QSANClient.create_volume, hGi]⟩

/-- C10: a volume whose persisted `provider_location` is unset (`None`)
or empty makes `initialize_connection` raise the backend-API error from
`_get_iscsi_properties` (re-raised by `save_and_reraise_exception`); it
never returns a connection descriptor. -/
theorem C10_no_location_error (env : InitConnEnv)
    (connectorInitiator : Option Str)
    (provider_location provider_auth : Option Str)
    (h : provider_location = none ∨ provider_location = some []) :
    (QSANISCSIDriver.initialize_connection env connectorInitiator
        provider_location provider_auth).result =
      .error .noProviderLocation := by
  rcases h with rfl | rfl <;>
    simp [QSANISCSIDriver.initialize_connection,
      QSANISCSIDriver._get_iscsi_properties]

/-- Concrete instances of the C10 theorem: an unset and an empty
persisted location, with and without a connector initiator. -/
theorem C10_witness :
    (QSANISCSIDriver.initialize_connection ⟨some 1, false⟩ (some ['i'])
        none (some ['a'])).result = .error .noProviderLocation ∧
    (QSANISCSIDriver.initialize_connection ⟨none, true⟩ none
        (some []) none).result = .error .noProviderLocation :=
  ⟨C10_no_location_error ⟨some 1, false⟩ (some ['i']) none (some ['a'])
      (Or.inl rfl),
    C10_no_location_error ⟨none, true⟩ none (some []) none (Or.inr rfl)⟩
